import Mathlib

/-!
Verification of the demodulation core of the webrtlsdr repository.

The embedding follows the TypeScript sources under src/ closely:

* `Mode` is the tagged union of modulation parameters from
  src/src/demod/modes.ts, with its accessor and setter functions
  (`ModeParameters` there).  JavaScript numbers are modelled as exact
  rationals; the claims under study are structural, not about binary
  floating-point rounding.
* Audio and I/Q buffers are lists of rationals.
* The squelch gate, the demodulation controller state machine, the per-mode
  demodulation pipelines and the sample counter are translated function by
  function.  DSP primitive classes (FIRFilter, FrequencyShifter,
  downsamplers, FM/AM/SSB discriminators, StereoSeparator, Deemphasizer,
  AGC) are not part of the repository sources; the pipeline functions take
  the per-call behaviour of those components as function arguments, and the
  power meter is modelled from the specification.
-/

namespace WebRtlSdr

/-- Demodulator output, the `Demodulated` record of src/src/demod/modes.ts:
left and right audio channels, a stereo flag, and the linear
signal-to-noise ratio. -/
structure Demodulated where
  left : List ℚ
  right : List ℚ
  stereo : Bool
  snr : ℚ
  deriving Repr, DecidableEq

/-- Modulation parameters: the `Mode` tagged union of src/src/demod/modes.ts.
Each constructor carries the fields of the corresponding variant. -/
inductive Mode where
  | wbfm (stereo : Bool)
  | nbfm (maxF : ℚ) (squelch : ℚ)
  | am (bandwidth : ℚ) (squelch : ℚ)
  | usb (bandwidth : ℚ) (squelch : ℚ)
  | lsb (bandwidth : ℚ) (squelch : ℚ)
  | cw (bandwidth : ℚ)
  deriving Repr, DecidableEq

/-- `ModeParameters.hasStereo` of src/src/demod/modes.ts. -/
def Mode.hasStereo : Mode → Bool
  | .wbfm _ => true
  | _ => false

/-- `ModeParameters.getStereo` of src/src/demod/modes.ts. -/
def Mode.getStereo : Mode → Bool
  | .wbfm st => st
  | _ => false

/-- `ModeParameters.setStereo` of src/src/demod/modes.ts: on a WBFM record it
builds a new record with the new stereo flag, on all others it is a no-op. -/
def Mode.setStereo : Mode → Bool → Mode
  | .wbfm _, st => .wbfm st
  | m, _ => m

/-- `ModeParameters.hasBandwidth` of src/src/demod/modes.ts. -/
def Mode.hasBandwidth : Mode → Bool
  | .wbfm _ => false
  | _ => true

/-- `ModeParameters.getBandwidth` of src/src/demod/modes.ts. -/
def Mode.getBandwidth : Mode → ℚ
  | .wbfm _ => 150000
  | .nbfm maxF _ => 2 * maxF
  | .am bandwidth _ => bandwidth
  | .usb bandwidth _ => bandwidth
  | .lsb bandwidth _ => bandwidth
  | .cw bandwidth => bandwidth

/-- `ModeParameters.setBandwidth` of src/src/demod/modes.ts.  The clamping
formulas are exactly those of the source (the per-mode `Configurator`
subclasses in src/src/demod/demod-nbfm.ts, demod-am.ts, demod-cw.ts and the
SSB demodulator source use the same formulas). -/
def Mode.setBandwidth : Mode → ℚ → Mode
  | .wbfm st, _ => .wbfm st
  | .nbfm _ squelch, b => .nbfm (max 125 (min (b / 2) 15000)) squelch
  | .am _ squelch, b => .am (max 250 (min b 30000)) squelch
  | .usb _ squelch, b => .usb (max 10 (min b 15000)) squelch
  | .lsb _ squelch, b => .lsb (max 10 (min b 15000)) squelch
  | .cw _, b => .cw (max 5 (min b 1000))

/-- `ModeParameters.hasSquelch` of src/src/demod/modes.ts: every scheme except
WBFM and CW has a squelch threshold. -/
def Mode.hasSquelch : Mode → Bool
  | .wbfm _ => false
  | .cw _ => false
  | _ => true

/-- `ModeParameters.getSquelch` of src/src/demod/modes.ts. -/
def Mode.getSquelch : Mode → ℚ
  | .wbfm _ => 0
  | .cw _ => 0
  | .nbfm _ squelch => squelch
  | .am _ squelch => squelch
  | .usb _ squelch => squelch
  | .lsb _ squelch => squelch

/-- `ModeParameters.setSquelch` of src/src/demod/modes.ts: clamps to the range
0 to 6 on the schemes that have squelch, no-op on WBFM and CW. -/
def Mode.setSquelch : Mode → ℚ → Mode
  | .wbfm st, _ => .wbfm st
  | .cw b, _ => .cw b
  | .nbfm maxF _, q => .nbfm maxF (max 0 (min q 6))
  | .am b _, q => .am b (max 0 (min q 6))
  | .usb b _, q => .usb b (max 0 (min q 6))
  | .lsb b _, q => .lsb b (max 0 (min q 6))

/-! ### Squelch gate

`SquelchControl.applySquelch` of src/src/demod/empty-demodulator.ts.  The
controller state is the tail countdown; the function returns the new
countdown together with the audio that is handed to the player. -/

/-- The `SQUELCH_TAIL` constant of `SquelchControl.applySquelch`: 0.1 seconds. -/
def squelchTail : ℚ := 1 / 10

/-- `SquelchControl.applySquelch` of src/src/demod/empty-demodulator.ts.
Returns the updated countdown and the (possibly zeroed) left and right
channels. -/
def applySquelch (sampleRate : ℚ) (countdown : ℚ) (mode : Mode)
    (left right : List ℚ) (snr : ℚ) : ℚ × List ℚ × List ℚ :=
  if ¬ mode.hasSquelch then (countdown, left, right)
  else if mode.getSquelch < snr then (squelchTail * sampleRate, left, right)
  else if 0 < countdown then (countdown - left.length, left, right)
  else (countdown, List.replicate left.length 0, List.replicate right.length 0)

/-! ### Demodulation controller

The `Demodulator` class of src/src/demod/empty-demodulator.ts, restricted to
the state that `receiveSamples`, `setFrequencyOffset` and
`expectFrequencyAndSetOffset` touch. -/

/-- The pending `Frequency` tuple of src/src/demod/empty-demodulator.ts. -/
structure Frequency where
  center : ℚ
  offset : ℚ
  deriving Repr, DecidableEq

/-- The mutable state of the `Demodulator` class that the receive path uses:
the active mode, the frequency offset, the pending expected-frequency tuple,
the squelch tail countdown and the latest stereo flag.  `sampleRate` is the
audio player sample rate handed to the squelch control. -/
structure DemodulatorState where
  mode : Mode
  frequencyOffset : ℚ
  expectingFrequency : Option Frequency
  countdown : ℚ
  latestStereo : Bool
  sampleRate : ℚ
  deriving Repr, DecidableEq

/-- `Demodulator.setFrequencyOffset`: stores the offset immediately. -/
def setFrequencyOffset (s : DemodulatorState) (offset : ℚ) : DemodulatorState :=
  { s with frequencyOffset := offset }

/-- `Demodulator.expectFrequencyAndSetOffset`: stores the pending tuple. -/
def expectFrequencyAndSetOffset (s : DemodulatorState) (center offset : ℚ) :
    DemodulatorState :=
  { s with expectingFrequency := some { center := center, offset := offset } }

/-- The deferred-offset check at the top of `Demodulator.receiveSamples`: if a
pending tuple exists and its center equals the frequency of the incoming
block, the stored offset is installed and the tuple cleared. -/
def applyExpectedFrequency (s : DemodulatorState) (frequency : ℚ) :
    DemodulatorState :=
  match s.expectingFrequency with
  | some f =>
      if f.center = frequency then
        { s with frequencyOffset := f.offset, expectingFrequency := none }
      else s
  | none => s

/-- `Demodulator.receiveSamples` of src/src/demod/empty-demodulator.ts.  The
active demodulation pipeline is passed as the function `demod`.  Returns the
new state, the audio block handed to the player, and the frequency offset
that was passed to `demod.demodulate`. -/
def receiveSamples (demod : List ℚ → List ℚ → ℚ → Demodulated)
    (s : DemodulatorState) (I Q : List ℚ) (frequency : ℚ) :
    DemodulatorState × (List ℚ × List ℚ) × ℚ :=
  let s1 := applyExpectedFrequency s frequency
  let d := demod I Q s1.frequencyOffset
  let gated := applySquelch s1.sampleRate s1.countdown s1.mode d.left d.right d.snr
  ({ s1 with countdown := gated.1, latestStereo := d.stereo },
   (gated.2.1, gated.2.2), s1.frequencyOffset)

/-! ### Sample counter

The `SampleCounter` class (a `SampleReceiver` that dispatches a periodic
sample-click event), from the demod sources. -/

/-- The state of a `SampleCounter`. -/
structure SampleCounterState where
  sampleRate : ℚ
  clicksPerSecond : Option ℚ
  samplesPerClick : Option ℤ
  countedSamples : ℤ
  deriving Repr, DecidableEq

/-- `SampleCounter.getSamplesPerClick`: the floor of sampleRate over
clicksPerSecond, or nothing when no click frequency was configured. -/
def getSamplesPerClick (sampleRate : ℚ) (clicksPerSecond : Option ℚ) :
    Option ℤ :=
  clicksPerSecond.map fun t => ⌊sampleRate / t⌋

/-- The `SampleCounter` constructor: the sample rate starts at 1024000. -/
def mkSampleCounter (clicksPerSecond : Option ℚ) : SampleCounterState :=
  { sampleRate := 1024000
    clicksPerSecond := clicksPerSecond
    samplesPerClick := getSamplesPerClick 1024000 clicksPerSecond
    countedSamples := 0 }

/-- `SampleCounter.setSampleRate`: replaces the rate and recomputes the
samples-per-click interval; the accumulated count is kept. -/
def SampleCounterState.setSampleRate (s : SampleCounterState) (rate : ℚ) :
    SampleCounterState :=
  { s with
    sampleRate := rate
    samplesPerClick := getSamplesPerClick rate s.clicksPerSecond }

/-- `SampleCounter.receiveSamples` for one block of the given length: adds the
length to the accumulated count; if an interval is configured and the count
reached it, reduces the count modulo the interval and dispatches one event.
Returns the new state and whether the event was dispatched. -/
def SampleCounterState.receiveSamples (s : SampleCounterState)
    (blockLength : ℕ) : SampleCounterState × Bool :=
  let c := s.countedSamples + blockLength
  match s.samplesPerClick with
  | none => ({ s with countedSamples := c }, false)
  | some k =>
      if k > c then ({ s with countedSamples := c }, false)
      else ({ s with countedSamples := c % k }, true)

/-- Feeds a sequence of block lengths to a `SampleCounter` and counts the
dispatched sample-click events. -/
def runCounter (s : SampleCounterState) : List ℕ → SampleCounterState × ℕ
  | [] => (s, 0)
  | n :: rest =>
      let step := s.receiveSamples n
      let tail := runCounter step.1 rest
      (tail.1, (if step.2 then 1 else 0) + tail.2)

/-- The total number of samples in a sequence of block lengths. -/
def totalSamples (ls : List ℕ) : ℤ :=
  (ls.map fun n => (n : ℤ)).sum

/-! ### Record identity of mode parameter objects

In JavaScript every mode parameters value is a heap record and the setters
build new records with the object spread syntax.  To state claims about
record identity we use an explicit store: a list of `Mode` records, where a
list index stands for an object reference and the spread syntax appends a
freshly constructed record.  Each heap setter mirrors the corresponding
setter of `ModeParameters` in src/src/demod/modes.ts: a branch that
reassigns the mode field allocates, a branch that falls through does not. -/

/-- Heap version of `ModeParameters.setBandwidth`: on a WBFM record the switch
falls through without building a record; on every other scheme a fresh record
with the clamped bandwidth is appended and referenced. -/
def heapSetBandwidth (h : List Mode) (i : ℕ) (b : ℚ) : List Mode × ℕ :=
  match h[i]? with
  | none => (h, i)
  | some m =>
      match m with
      | .wbfm _ => (h, i)
      | _ => (h ++ [m.setBandwidth b], h.length)

/-- Heap version of `ModeParameters.setStereo`: allocates a fresh record only
on a WBFM record. -/
def heapSetStereo (h : List Mode) (i : ℕ) (st : Bool) : List Mode × ℕ :=
  match h[i]? with
  | none => (h, i)
  | some m =>
      match m with
      | .wbfm _ => (h ++ [.wbfm st], h.length)
      | _ => (h, i)

/-- Heap version of `ModeParameters.setSquelch`: allocates a fresh record with
the clamped squelch on the schemes that have squelch, no-op on WBFM and CW. -/
def heapSetSquelch (h : List Mode) (i : ℕ) (q : ℚ) : List Mode × ℕ :=
  match h[i]? with
  | none => (h, i)
  | some m =>
      match m with
      | .wbfm _ => (h, i)
      | .cw _ => (h, i)
      | _ => (h ++ [m.setSquelch q], h.length)

/-! ### Mode pipelines

One `demodulate` call of each per-mode pipeline.  The pipeline structure —
what is called, in which order, and which buffers the results are written
to — is translated from the sources.  The DSP component classes are not
among the repository source files, so each pipeline function takes the
per-call input/output behaviour of its components as function arguments:
`shifterInPlace I Q f` is the content of the two buffers after
`FrequencyShifter.inPlace(I, Q, f)`, `downsample` is
`ComplexDownsampler.downsample`, and so on.  Each pipeline returns the
demodulator output together with the final contents of the two buffers the
caller passed in (which the TypeScript code mutates in place). -/

/-- Modelled from the spec: the power meter `getPower` of the dsp package is
not among the repository source files.  Spec section 4.10: the power of a
complex signal is the sum of the squared norms divided by the number of
samples. -/
def getPower (I Q : List ℚ) : ℚ :=
  ((I.zip Q).map fun p => p.1 * p.1 + p.2 * p.2).sum / I.length

/-- `DemodNBFM.demodulate` of src/src/demod/demod-nbfm.ts. -/
def demodulateNBFM
    (shifterInPlace : List ℚ → List ℚ → ℚ → List ℚ × List ℚ)
    (downsample : List ℚ → List ℚ → List ℚ × List ℚ)
    (filterI filterQ : List ℚ → List ℚ)
    (fmDemodulate : List ℚ → List ℚ → List ℚ)
    (outRate maxF : ℚ)
    (samplesI samplesQ : List ℚ) (freqOffset : ℚ) :
    Demodulated × List ℚ × List ℚ :=
  let s := shifterInPlace samplesI samplesQ (-freqOffset)
  let d := downsample s.1 s.2
  let allPower := getPower d.1 d.2
  let fI := filterI d.1
  let fQ := filterQ d.2
  let signalPower := getPower fI fQ * outRate / (maxF * 2)
  let audio := fmDemodulate fI fQ
  ({ left := audio, right := audio, stereo := false,
     snr := signalPower / allPower },
   s.1, s.2)

/-- `DemodAM.demodulate` of src/src/demod/demod-am.ts.  The `AMDemodulator`
component (envelope detection plus DC block) is the argument
`amDemodulate`. -/
def demodulateAM
    (shifterInPlace : List ℚ → List ℚ → ℚ → List ℚ × List ℚ)
    (downsample : List ℚ → List ℚ → List ℚ × List ℚ)
    (filterI filterQ : List ℚ → List ℚ)
    (amDemodulate : List ℚ → List ℚ → List ℚ)
    (outRate bandwidth : ℚ)
    (samplesI samplesQ : List ℚ) (freqOffset : ℚ) :
    Demodulated × List ℚ × List ℚ :=
  let s := shifterInPlace samplesI samplesQ (-freqOffset)
  let d := downsample s.1 s.2
  let allPower := getPower d.1 d.2
  let fI := filterI d.1
  let fQ := filterQ d.2
  let signalPower := getPower fI fQ * outRate / bandwidth
  let audio := amDemodulate fI fQ
  ({ left := audio, right := audio, stereo := false,
     snr := signalPower / allPower },
   s.1, s.2)

/-- `DemodSSB.demodulate` of the SSB demodulator source.  Note the order: the
SSB discriminator runs before the audio filter, and the signal power is
measured on the filtered demodulated (real) signal as `getPower(I, I)`. -/
def demodulateSSB
    (shifterInPlace : List ℚ → List ℚ → ℚ → List ℚ × List ℚ)
    (downsample : List ℚ → List ℚ → List ℚ × List ℚ)
    (ssbDemodulate : List ℚ → List ℚ → List ℚ)
    (filterInPlace : List ℚ → List ℚ)
    (agcInPlace : List ℚ → List ℚ)
    (outRate bandwidth : ℚ)
    (samplesI samplesQ : List ℚ) (freqOffset : ℚ) :
    Demodulated × List ℚ × List ℚ :=
  let s := shifterInPlace samplesI samplesQ (-freqOffset)
  let d := downsample s.1 s.2
  let allPower := getPower d.1 d.2
  let dem := ssbDemodulate d.1 d.2
  let f := filterInPlace dem
  let signalPower := getPower f f * outRate / (bandwidth * 2)
  let audio := agcInPlace f
  ({ left := audio, right := audio, stereo := false,
     snr := signalPower / allPower },
   s.1, s.2)

/-- `DemodCW.demodulate` of src/src/demod/demod-cw.ts.  After filtering, the
baseband is shifted up by the tone frequency and the AGC is applied to the I
channel. -/
def demodulateCW
    (shifterInPlace : List ℚ → List ℚ → ℚ → List ℚ × List ℚ)
    (downsample : List ℚ → List ℚ → List ℚ × List ℚ)
    (filterI filterQ : List ℚ → List ℚ)
    (toneShifterInPlace : List ℚ → List ℚ → ℚ → List ℚ × List ℚ)
    (agcInPlace : List ℚ → List ℚ)
    (outRate bandwidth toneFrequency : ℚ)
    (samplesI samplesQ : List ℚ) (freqOffset : ℚ) :
    Demodulated × List ℚ × List ℚ :=
  let s := shifterInPlace samplesI samplesQ (-freqOffset)
  let d := downsample s.1 s.2
  let allPower := getPower d.1 d.2
  let fI := filterI d.1
  let fQ := filterQ d.2
  let signalPower := getPower fI fQ * outRate / bandwidth
  let t := toneShifterInPlace fI fQ toneFrequency
  let audio := agcInPlace t.1
  ({ left := audio, right := audio, stereo := false,
     snr := signalPower / allPower },
   s.1, s.2)

/-- `DemodWBFMStage1.demodulate` of src/src/demod/empty-demodulator.ts.  When
the input and output rates are equal the downsampler is absent and the
filters and the FM discriminator write into the very buffers the caller
passed in; with a downsampler present the caller buffers only receive the
frequency shift.  The second and third components of the result are the
final contents of the caller I and Q buffers. -/
def demodulateWBFMStage1
    (shifterInPlace : List ℚ → List ℚ → ℚ → List ℚ × List ℚ)
    (downsampler : Option (List ℚ → List ℚ → List ℚ × List ℚ))
    (filterI filterQ : List ℚ → List ℚ)
    (fmDemodulate : List ℚ → List ℚ → List ℚ)
    (outRate : ℚ)
    (samplesI samplesQ : List ℚ) (freqOffset : ℚ) :
    Demodulated × List ℚ × List ℚ :=
  let s := shifterInPlace samplesI samplesQ (-freqOffset)
  let d := match downsampler with
    | some ds => ds s.1 s.2
    | none => s
  let allPower := getPower d.1 d.2
  let fI := filterI d.1
  let fQ := filterQ d.2
  let signalPower := getPower fI fQ * outRate / 150000
  let audio := fmDemodulate fI fQ
  let callerI := match downsampler with
    | some _ => s.1
    | none => audio
  let callerQ := match downsampler with
    | some _ => s.2
    | none => fQ
  ({ left := audio, right := audio, stereo := false,
     snr := signalPower / allPower },
   callerI, callerQ)

/-- The stereo difference loop of `DemodWBFMStage2.demodulate`: adds the
difference signal element by element into the audio buffer.  An index past
the end of the audio buffer is ignored, as assignment past the end of a
typed array is; surplus audio samples are kept. -/
def addInto : List ℚ → List ℚ → List ℚ
  | xs, [] => xs
  | [], _ => []
  | x :: xs, d :: ds => (x + d) :: addInto xs ds

/-- Like `addInto` but subtracting, for the right channel. -/
def subInto : List ℚ → List ℚ → List ℚ
  | xs, [] => xs
  | [], _ => []
  | x :: xs, d :: ds => (x - d) :: subInto xs ds

/-- `DemodWBFMStage2.demodulate` of src/src/demod/empty-demodulator.ts.  It
downsamples the composite to mono audio, duplicates it into both channels,
and when stereo is requested and the separator finds the pilot it adds the
downsampled difference into the left channel and subtracts it from the
right channel; finally each channel gets its own deemphasizer.  The stage 2
snr field is the constant 1. -/
def demodulateWBFMStage2
    (monoDownsample stereoDownsample : List ℚ → List ℚ)
    (separate : List ℚ → Bool × List ℚ)
    (leftDeemph rightDeemph : List ℚ → List ℚ)
    (stereoMode : Bool) (samplesI : List ℚ) : Demodulated :=
  let leftAudio := monoDownsample samplesI
  let rightAudio := leftAudio
  let mixed : Bool × List ℚ × List ℚ :=
    if stereoMode then
      let sep := separate samplesI
      if sep.1 then
        let diffAudio := stereoDownsample sep.2
        (true, addInto leftAudio diffAudio, subInto rightAudio diffAudio)
      else (false, leftAudio, rightAudio)
    else (false, leftAudio, rightAudio)
  { left := leftDeemph mixed.2.1
    right := rightDeemph mixed.2.2
    stereo := mixed.1
    snr := 1 }

/-- `DemodWBFM.demodulate` of src/src/demod/empty-demodulator.ts: stage 1
feeds its left channel into stage 2, and the emitted block is the stage 2
output with the snr replaced by the stage 1 snr.  The second component is
the final contents of the caller buffers, mutated by stage 1. -/
def demodulateWBFM
    (shifterInPlace : List ℚ → List ℚ → ℚ → List ℚ × List ℚ)
    (downsampler : Option (List ℚ → List ℚ → List ℚ × List ℚ))
    (filterI filterQ : List ℚ → List ℚ)
    (fmDemodulate : List ℚ → List ℚ → List ℚ)
    (monoDownsample stereoDownsample : List ℚ → List ℚ)
    (separate : List ℚ → Bool × List ℚ)
    (leftDeemph rightDeemph : List ℚ → List ℚ)
    (interRate : ℚ) (stereoMode : Bool)
    (samplesI samplesQ : List ℚ) (freqOffset : ℚ) :
    Demodulated × List ℚ × List ℚ :=
  let o1 := demodulateWBFMStage1 shifterInPlace downsampler filterI filterQ
    fmDemodulate interRate samplesI samplesQ freqOffset
  let o2 := demodulateWBFMStage2 monoDownsample stereoDownsample separate
    leftDeemph rightDeemph stereoMode o1.1.left
  ({ o2 with snr := o1.1.snr }, o1.2)

/-! ## Theorems -/

/-- C1: for every demodulated audio block in a mode with a squelch threshold,
if the snr is strictly above the threshold the audio passes unmodified and
the tail counter is reset to 0.1 times the audio sample rate; otherwise, if
the tail counter is positive, the audio passes and the counter is
decremented by the block length; otherwise both channels are zeroed.  Modes
without squelch (WBFM and CW) always pass the audio through unmodified. -/
theorem c1_squelch_gate (sampleRate countdown snr : ℚ) (mode : Mode)
    (left right : List ℚ) :
    (mode.hasSquelch = true → mode.getSquelch < snr →
      applySquelch sampleRate countdown mode left right snr =
        (squelchTail * sampleRate, left, right)) ∧
    (mode.hasSquelch = true → ¬ mode.getSquelch < snr → 0 < countdown →
      applySquelch sampleRate countdown mode left right snr =
        (countdown - left.length, left, right)) ∧
    (mode.hasSquelch = true → ¬ mode.getSquelch < snr → ¬ 0 < countdown →
      applySquelch sampleRate countdown mode left right snr =
        (countdown, List.replicate left.length 0,
         List.replicate right.length 0)) ∧
    (∀ st : Bool,
      applySquelch sampleRate countdown (Mode.wbfm st) left right snr =
        (countdown, left, right)) ∧
    (∀ bw : ℚ,
      applySquelch sampleRate countdown (Mode.cw bw) left right snr =
        (countdown, left, right)) := by
  refine ⟨fun hs hlt => ?_, fun hs hge hcd => ?_, fun hs hge hcd => ?_,
    fun st => ?_, fun bw => ?_⟩
  · simp only [applySquelch]
    rw [if_neg (by simp [hs]), if_pos hlt]
  · simp only [applySquelch]
    rw [if_neg (by simp [hs]), if_neg hge, if_pos hcd]
  · simp only [applySquelch]
    rw [if_neg (by simp [hs]), if_neg hge, if_neg hcd]
  · simp [applySquelch, Mode.hasSquelch]
  · simp [applySquelch, Mode.hasSquelch]

/-- C1 witness: the squelch gate evaluated on concrete blocks, one instance
for each branch of the theorem. -/
theorem c1_squelch_gate_witness :
    applySquelch 48000 0 (Mode.am 15000 2) [3, 4] [3, 4] 5 =
      (4800, [3, 4], [3, 4]) ∧
    applySquelch 48000 4800 (Mode.am 15000 2) [3, 4] [3, 4] 1 =
      (4798, [3, 4], [3, 4]) ∧
    applySquelch 48000 0 (Mode.am 15000 2) [3, 4] [3, 4] 1 =
      (0, [0, 0], [0, 0]) := by
  refine ⟨?_, ?_, ?_⟩
  · have h := (c1_squelch_gate 48000 0 5 (Mode.am 15000 2) [3, 4] [3, 4]).1
      (by decide) (by norm_num [Mode.getSquelch])
    norm_num [squelchTail] at h
    exact h
  · have h := (c1_squelch_gate 48000 4800 1 (Mode.am 15000 2) [3, 4] [3, 4]).2.1
      (by decide) (by norm_num [Mode.getSquelch]) (by norm_num)
    norm_num [List.length] at h
    exact h
  · have h := (c1_squelch_gate 48000 0 1 (Mode.am 15000 2) [3, 4] [3, 4]).2.2.1
      (by decide) (by norm_num [Mode.getSquelch]) (by norm_num)
    simpa using h

/-- C3: after `expectFrequencyAndSetOffset(center, offset)`, the first
received block whose frequency equals the stored center has the stored
offset installed and the tuple cleared, and this happens before the block
is demodulated: the pipeline is invoked with the new offset, never the old
one; a block with any other frequency leaves the tuple pending and uses the
previously current offset. -/
theorem c3_pending_offset_applied_before_demodulation
    (demod : List ℚ → List ℚ → ℚ → Demodulated)
    (s : DemodulatorState) (center offset frequency : ℚ) (I Q : List ℚ) :
    (frequency = center →
      (receiveSamples demod (expectFrequencyAndSetOffset s center offset)
          I Q frequency).2.2 = offset ∧
      (receiveSamples demod (expectFrequencyAndSetOffset s center offset)
          I Q frequency).1.expectingFrequency = none ∧
      (receiveSamples demod (expectFrequencyAndSetOffset s center offset)
          I Q frequency).2.1 =
        ((applySquelch s.sampleRate s.countdown s.mode (demod I Q offset).left
            (demod I Q offset).right (demod I Q offset).snr).2.1,
         (applySquelch s.sampleRate s.countdown s.mode (demod I Q offset).left
            (demod I Q offset).right (demod I Q offset).snr).2.2)) ∧
    (frequency ≠ center →
      (receiveSamples demod (expectFrequencyAndSetOffset s center offset)
          I Q frequency).2.2 = s.frequencyOffset ∧
      (receiveSamples demod (expectFrequencyAndSetOffset s center offset)
          I Q frequency).1.expectingFrequency =
        some { center := center, offset := offset }) := by
  constructor
  · intro h
    subst h
    refine ⟨?_, ?_, ?_⟩ <;>
      simp [receiveSamples, applyExpectedFrequency, expectFrequencyAndSetOffset]
  · intro h
    have hne : ¬ center = frequency := fun hc => h hc.symm
    refine ⟨?_, ?_⟩ <;>
      simp [receiveSamples, applyExpectedFrequency,
        expectFrequencyAndSetOffset, hne]

/-- C3 witness: a concrete controller state, expecting center 93900000 with
offset 250000, receiving a block at that frequency: the pipeline sees offset
250000 and the tuple is cleared; a block at another frequency keeps the
tuple and the old offset 0. -/
theorem c3_pending_offset_applied_before_demodulation_witness :
    (receiveSamples (fun I Q _ => ⟨I, Q, false, 0⟩)
        (expectFrequencyAndSetOffset
          ⟨Mode.wbfm true, 0, none, 0, false, 48000⟩ 93900000 250000)
        [1] [2] 93900000).2.2 = 250000 ∧
    (receiveSamples (fun I Q _ => ⟨I, Q, false, 0⟩)
        (expectFrequencyAndSetOffset
          ⟨Mode.wbfm true, 0, none, 0, false, 48000⟩ 93900000 250000)
        [1] [2] 93900000).1.expectingFrequency = none ∧
    (receiveSamples (fun I Q _ => ⟨I, Q, false, 0⟩)
        (expectFrequencyAndSetOffset
          ⟨Mode.wbfm true, 0, none, 0, false, 48000⟩ 93900000 250000)
        [1] [2] 88500000).2.2 = 0 := by
  refine ⟨?_, ?_, ?_⟩
  · exact ((c3_pending_offset_applied_before_demodulation
      (fun I Q _ => ⟨I, Q, false, 0⟩) ⟨Mode.wbfm true, 0, none, 0, false, 48000⟩
      93900000 250000 93900000 [1] [2]).1 rfl).1
  · exact ((c3_pending_offset_applied_before_demodulation
      (fun I Q _ => ⟨I, Q, false, 0⟩) ⟨Mode.wbfm true, 0, none, 0, false, 48000⟩
      93900000 250000 93900000 [1] [2]).1 rfl).2.1
  · exact ((c3_pending_offset_applied_before_demodulation
      (fun I Q _ => ⟨I, Q, false, 0⟩) ⟨Mode.wbfm true, 0, none, 0, false, 48000⟩
      93900000 250000 88500000 [1] [2]).2 (by norm_num)).1

/-- C10: a pending tuple stored by `expectFrequencyAndSetOffset` is not
cancelled by `setFrequencyOffset`: after storing the tuple and then setting
a direct offset, the tuple is still pending, and the first block whose
frequency equals the stored center is demodulated with the stored offset,
which also overwrites the directly set one in the controller state. -/
theorem c10_set_offset_does_not_cancel_pending
    (demod : List ℚ → List ℚ → ℚ → Demodulated)
    (s : DemodulatorState) (center offset x : ℚ) (I Q : List ℚ) :
    (setFrequencyOffset (expectFrequencyAndSetOffset s center offset)
        x).expectingFrequency = some { center := center, offset := offset } ∧
    (receiveSamples demod
        (setFrequencyOffset (expectFrequencyAndSetOffset s center offset) x)
        I Q center).2.2 = offset ∧
    (receiveSamples demod
        (setFrequencyOffset (expectFrequencyAndSetOffset s center offset) x)
        I Q center).1.frequencyOffset = offset := by
  refine ⟨rfl, ?_, ?_⟩ <;>
    simp [receiveSamples, applyExpectedFrequency, expectFrequencyAndSetOffset,
      setFrequencyOffset]

/-- C4: the parameter setters clamp to the documented ranges instead of
failing, and the getter afterwards reflects the clamped value: for each
scheme the bandwidth after `setBandwidth b` is exactly b clamped to the
range of the scheme (so a value below the minimum yields the minimum, e.g.
-1, and a value above the maximum yields the maximum, e.g. 10^9), and the
squelch after `setSquelch q` is exactly q clamped to the range 0 to 6. -/
theorem c4_setter_clamping :
    (∀ maxF squelch b : ℚ,
      ((Mode.nbfm maxF squelch).setBandwidth b).getBandwidth =
        max 250 (min b 30000)) ∧
    (∀ bw squelch b : ℚ,
      ((Mode.am bw squelch).setBandwidth b).getBandwidth =
        max 250 (min b 30000)) ∧
    (∀ bw squelch b : ℚ,
      ((Mode.usb bw squelch).setBandwidth b).getBandwidth =
        max 10 (min b 15000)) ∧
    (∀ bw squelch b : ℚ,
      ((Mode.lsb bw squelch).setBandwidth b).getBandwidth =
        max 10 (min b 15000)) ∧
    (∀ bw b : ℚ,
      ((Mode.cw bw).setBandwidth b).getBandwidth = max 5 (min b 1000)) ∧
    (((Mode.nbfm 5000 0).setBandwidth (-1)).getBandwidth = 250 ∧
      ((Mode.nbfm 5000 0).setBandwidth (10 ^ 9)).getBandwidth = 30000) ∧
    (((Mode.am 15000 0).setBandwidth (-1)).getBandwidth = 250 ∧
      ((Mode.am 15000 0).setBandwidth (10 ^ 9)).getBandwidth = 30000) ∧
    (((Mode.usb 2800 0).setBandwidth (-1)).getBandwidth = 10 ∧
      ((Mode.usb 2800 0).setBandwidth (10 ^ 9)).getBandwidth = 15000) ∧
    (((Mode.lsb 2800 0).setBandwidth (-1)).getBandwidth = 10 ∧
      ((Mode.lsb 2800 0).setBandwidth (10 ^ 9)).getBandwidth = 15000) ∧
    (((Mode.cw 50).setBandwidth (-1)).getBandwidth = 5 ∧
      ((Mode.cw 50).setBandwidth (10 ^ 9)).getBandwidth = 1000) ∧
    (∀ m : Mode, ∀ q : ℚ, m.hasSquelch = true →
      ((m.setSquelch q).getSquelch = max 0 (min q 6) ∧
        0 ≤ (m.setSquelch q).getSquelch ∧ (m.setSquelch q).getSquelch ≤ 6)) := by
  have hnb : ∀ b : ℚ, 2 * max 125 (min (b / 2) 15000) = max 250 (min b 30000) := by
    intro b
    have h1 : min b 30000 = 2 * min (b / 2) 15000 := by
      rcases le_total b 30000 with h | h
      · rw [min_eq_left h, min_eq_left (by linarith)]; ring
      · rw [min_eq_right h, min_eq_right (by linarith)]; norm_num
    rw [h1]
    rcases le_total 125 (min (b / 2) 15000) with h | h
    · rw [max_eq_right h, max_eq_right (by linarith)]
    · rw [max_eq_left h, max_eq_left (by linarith)]; norm_num
  refine ⟨?_, ?_, ?_, ?_, ?_, ?_, ?_, ?_, ?_, ?_, ?_⟩
  · intro maxF squelch b
    simpa [Mode.setBandwidth, Mode.getBandwidth] using hnb b
  · intro bw squelch b; rfl
  · intro bw squelch b; rfl
  · intro bw squelch b; rfl
  · intro bw b; rfl
  · constructor <;> norm_num [Mode.setBandwidth, Mode.getBandwidth]
  · constructor <;> norm_num [Mode.setBandwidth, Mode.getBandwidth]
  · constructor <;> norm_num [Mode.setBandwidth, Mode.getBandwidth]
  · constructor <;> norm_num [Mode.setBandwidth, Mode.getBandwidth]
  · constructor <;> norm_num [Mode.setBandwidth, Mode.getBandwidth]
  · rintro (st | ⟨f, q⟩ | ⟨b, q⟩ | ⟨b, q⟩ | ⟨b, q⟩ | b) q hs <;>
      simp_all [Mode.hasSquelch, Mode.setSquelch, Mode.getSquelch]

/-- C4 witness: discharging the squelch hypothesis at a concrete mode: the AM
squelch setter clamps -3 to 0 and 100 to 6. -/
theorem c4_setter_clamping_witness :
    ((Mode.am 15000 0).setSquelch (-3)).getSquelch = max 0 (min (-3 : ℚ) 6) ∧
    ((Mode.am 15000 0).setSquelch 100).getSquelch = max 0 (min (100 : ℚ) 6) := by
  exact ⟨(c4_setter_clamping.2.2.2.2.2.2.2.2.2.2 (Mode.am 15000 0) (-3) rfl).1,
    (c4_setter_clamping.2.2.2.2.2.2.2.2.2.2 (Mode.am 15000 0) 100 rfl).1⟩

/-- C5: the snr returned by the NBFM pipeline is the power of the filtered
(I, Q) pair scaled by outRate over 2 times the maximum deviation, divided by
the total power measured after downsampling and before filtering; the snr
returned by the SSB pipeline is `getPower(I, I)` of the filtered demodulated
signal scaled by outRate over bandwidth times 2, divided by the total power
measured after downsampling. -/
theorem c5_snr_formula
    (shifterInPlace : List ℚ → List ℚ → ℚ → List ℚ × List ℚ)
    (downsample : List ℚ → List ℚ → List ℚ × List ℚ)
    (filterI filterQ : List ℚ → List ℚ)
    (fmDemodulate : List ℚ → List ℚ → List ℚ)
    (ssbDemodulate : List ℚ → List ℚ → List ℚ)
    (filterInPlace agcInPlace : List ℚ → List ℚ)
    (outRate maxF bandwidth : ℚ)
    (samplesI samplesQ : List ℚ) (freqOffset : ℚ) :
    (demodulateNBFM shifterInPlace downsample filterI filterQ fmDemodulate
        outRate maxF samplesI samplesQ freqOffset).1.snr =
      getPower
          (filterI (downsample (shifterInPlace samplesI samplesQ (-freqOffset)).1
            (shifterInPlace samplesI samplesQ (-freqOffset)).2).1)
          (filterQ (downsample (shifterInPlace samplesI samplesQ (-freqOffset)).1
            (shifterInPlace samplesI samplesQ (-freqOffset)).2).2)
        * outRate / (2 * maxF)
        / getPower
            (downsample (shifterInPlace samplesI samplesQ (-freqOffset)).1
              (shifterInPlace samplesI samplesQ (-freqOffset)).2).1
            (downsample (shifterInPlace samplesI samplesQ (-freqOffset)).1
              (shifterInPlace samplesI samplesQ (-freqOffset)).2).2 ∧
    (demodulateSSB shifterInPlace downsample ssbDemodulate filterInPlace
        agcInPlace outRate bandwidth samplesI samplesQ freqOffset).1.snr =
      getPower
          (filterInPlace (ssbDemodulate
            (downsample (shifterInPlace samplesI samplesQ (-freqOffset)).1
              (shifterInPlace samplesI samplesQ (-freqOffset)).2).1
            (downsample (shifterInPlace samplesI samplesQ (-freqOffset)).1
              (shifterInPlace samplesI samplesQ (-freqOffset)).2).2))
          (filterInPlace (ssbDemodulate
            (downsample (shifterInPlace samplesI samplesQ (-freqOffset)).1
              (shifterInPlace samplesI samplesQ (-freqOffset)).2).1
            (downsample (shifterInPlace samplesI samplesQ (-freqOffset)).1
              (shifterInPlace samplesI samplesQ (-freqOffset)).2).2))
        * outRate / (bandwidth * 2)
        / getPower
            (downsample (shifterInPlace samplesI samplesQ (-freqOffset)).1
              (shifterInPlace samplesI samplesQ (-freqOffset)).2).1
            (downsample (shifterInPlace samplesI samplesQ (-freqOffset)).1
              (shifterInPlace samplesI samplesQ (-freqOffset)).2).2 := by
  constructor
  · simp only [demodulateNBFM]
    rw [mul_comm 2 maxF]
  · simp only [demodulateSSB]

/-- C6: the NBFM, AM, SSB and CW pipelines all return a right channel that is
an element-for-element copy of the left channel, and a stereo flag of
false. -/
theorem c6_mono_output_duplicated
    (shifterInPlace : List ℚ → List ℚ → ℚ → List ℚ × List ℚ)
    (downsample : List ℚ → List ℚ → List ℚ × List ℚ)
    (filterI filterQ : List ℚ → List ℚ)
    (fmDemodulate amDemodulate ssbDemodulate : List ℚ → List ℚ → List ℚ)
    (filterInPlace agcInPlace : List ℚ → List ℚ)
    (toneShifterInPlace : List ℚ → List ℚ → ℚ → List ℚ × List ℚ)
    (outRate maxF bandwidth toneFrequency : ℚ)
    (samplesI samplesQ : List ℚ) (freqOffset : ℚ) :
    ((demodulateNBFM shifterInPlace downsample filterI filterQ fmDemodulate
        outRate maxF samplesI samplesQ freqOffset).1.right =
      (demodulateNBFM shifterInPlace downsample filterI filterQ fmDemodulate
        outRate maxF samplesI samplesQ freqOffset).1.left ∧
     (demodulateNBFM shifterInPlace downsample filterI filterQ fmDemodulate
        outRate maxF samplesI samplesQ freqOffset).1.stereo = false) ∧
    ((demodulateAM shifterInPlace downsample filterI filterQ amDemodulate
        outRate bandwidth samplesI samplesQ freqOffset).1.right =
      (demodulateAM shifterInPlace downsample filterI filterQ amDemodulate
        outRate bandwidth samplesI samplesQ freqOffset).1.left ∧
     (demodulateAM shifterInPlace downsample filterI filterQ amDemodulate
        outRate bandwidth samplesI samplesQ freqOffset).1.stereo = false) ∧
    ((demodulateSSB shifterInPlace downsample ssbDemodulate filterInPlace
        agcInPlace outRate bandwidth samplesI samplesQ freqOffset).1.right =
      (demodulateSSB shifterInPlace downsample ssbDemodulate filterInPlace
        agcInPlace outRate bandwidth samplesI samplesQ freqOffset).1.left ∧
     (demodulateSSB shifterInPlace downsample ssbDemodulate filterInPlace
        agcInPlace outRate bandwidth samplesI samplesQ freqOffset).1.stereo =
       false) ∧
    ((demodulateCW shifterInPlace downsample filterI filterQ
        toneShifterInPlace agcInPlace outRate bandwidth toneFrequency
        samplesI samplesQ freqOffset).1.right =
      (demodulateCW shifterInPlace downsample filterI filterQ
        toneShifterInPlace agcInPlace outRate bandwidth toneFrequency
        samplesI samplesQ freqOffset).1.left ∧
     (demodulateCW shifterInPlace downsample filterI filterQ
        toneShifterInPlace agcInPlace outRate bandwidth toneFrequency
        samplesI samplesQ freqOffset).1.stereo = false) :=
  ⟨⟨rfl, rfl⟩, ⟨rfl, rfl⟩, ⟨rfl, rfl⟩, ⟨rfl, rfl⟩⟩

/-- C9: each pipeline mutates the caller input buffers in place: after the
call the I and Q buffers passed in hold the output of the frequency shift by
the negated offset (shown here for AM, NBFM, SSB, CW and WBFM stage 1 with
a downsampler); in WBFM stage 1 at equal input and output rates the caller
buffers further receive the filtered Q signal and the FM-discriminated
signal; hence whenever the frequency shift changes the data, the buffers no
longer hold the original samples. -/
theorem c9_inplace_buffer_mutation
    (shifterInPlace : List ℚ → List ℚ → ℚ → List ℚ × List ℚ)
    (downsample : List ℚ → List ℚ → List ℚ × List ℚ)
    (filterI filterQ : List ℚ → List ℚ)
    (fmDemodulate amDemodulate ssbDemodulate : List ℚ → List ℚ → List ℚ)
    (filterInPlace agcInPlace : List ℚ → List ℚ)
    (toneShifterInPlace : List ℚ → List ℚ → ℚ → List ℚ × List ℚ)
    (outRate maxF bandwidth toneFrequency : ℚ)
    (samplesI samplesQ : List ℚ) (freqOffset : ℚ) :
    (demodulateAM shifterInPlace downsample filterI filterQ amDemodulate
        outRate bandwidth samplesI samplesQ freqOffset).2 =
      shifterInPlace samplesI samplesQ (-freqOffset) ∧
    (demodulateNBFM shifterInPlace downsample filterI filterQ fmDemodulate
        outRate maxF samplesI samplesQ freqOffset).2 =
      shifterInPlace samplesI samplesQ (-freqOffset) ∧
    (demodulateSSB shifterInPlace downsample ssbDemodulate filterInPlace
        agcInPlace outRate bandwidth samplesI samplesQ freqOffset).2 =
      shifterInPlace samplesI samplesQ (-freqOffset) ∧
    (demodulateCW shifterInPlace downsample filterI filterQ
        toneShifterInPlace agcInPlace outRate bandwidth toneFrequency
        samplesI samplesQ freqOffset).2 =
      shifterInPlace samplesI samplesQ (-freqOffset) ∧
    (demodulateWBFMStage1 shifterInPlace (some downsample) filterI filterQ
        fmDemodulate outRate samplesI samplesQ freqOffset).2 =
      shifterInPlace samplesI samplesQ (-freqOffset) ∧
    (demodulateWBFMStage1 shifterInPlace none filterI filterQ
        fmDemodulate outRate samplesI samplesQ freqOffset).2 =
      (fmDemodulate
        (filterI (shifterInPlace samplesI samplesQ (-freqOffset)).1)
        (filterQ (shifterInPlace samplesI samplesQ (-freqOffset)).2),
       filterQ (shifterInPlace samplesI samplesQ (-freqOffset)).2) ∧
    ((shifterInPlace samplesI samplesQ (-freqOffset)).1 ≠ samplesI →
      (demodulateAM shifterInPlace downsample filterI filterQ amDemodulate
        outRate bandwidth samplesI samplesQ freqOffset).2 ≠
        (samplesI, samplesQ)) := by
  refine ⟨rfl, rfl, rfl, rfl, rfl, rfl, fun h hc => h ?_⟩
  have : (shifterInPlace samplesI samplesQ (-freqOffset)).1 =
      (samplesI, samplesQ).1 := by rw [← hc]; rfl
  exact this

/-- C9 witness: a concrete frequency shift that changes the I buffer makes
the AM pipeline leave the caller buffers different from the original
samples. -/
theorem c9_inplace_buffer_mutation_witness :
    (demodulateAM (fun I Q _ => (I.map fun x => x + 1, Q))
        (fun I Q => (I, Q)) id id (fun I _ => I) 48000 15000
        [0] [0] 100).2 ≠ (([0] : List ℚ), ([0] : List ℚ)) := by
  exact (c9_inplace_buffer_mutation (fun I Q _ => (I.map fun x => x + 1, Q))
      (fun I Q => (I, Q)) id id (fun I _ => I) (fun I _ => I) (fun I _ => I)
      id id (fun I Q _ => (I, Q)) 48000 5000 15000 600 [0] [0]
      100).2.2.2.2.2.2 (by norm_num)

/-- C2: in WBFM stage 2, when stereo is requested and the separator finds the
pilot, the downsampled difference is added into the left channel and
subtracted from the right channel (each channel then passing its own
deemphasizer); otherwise both channels are the identical deemphasized
downsampled mono signal.  The stage 2 stereo flag is found AND requested,
and the block emitted by the combined WBFM pipeline keeps the stage 2
channels and flag but carries the snr computed by stage 1. -/
theorem c2_wbfm_stereo_mixing
    (shifterInPlace : List ℚ → List ℚ → ℚ → List ℚ × List ℚ)
    (downsampler : Option (List ℚ → List ℚ → List ℚ × List ℚ))
    (filterI filterQ : List ℚ → List ℚ)
    (fmDemodulate : List ℚ → List ℚ → List ℚ)
    (monoDownsample stereoDownsample : List ℚ → List ℚ)
    (separate : List ℚ → Bool × List ℚ)
    (leftDeemph rightDeemph : List ℚ → List ℚ)
    (interRate : ℚ) (stereoMode : Bool)
    (samplesI samplesQ : List ℚ) (freqOffset : ℚ) :
    (∀ composite : List ℚ, stereoMode = true → (separate composite).1 = true →
      (demodulateWBFMStage2 monoDownsample stereoDownsample separate
          leftDeemph rightDeemph stereoMode composite).left =
        leftDeemph (addInto (monoDownsample composite)
          (stereoDownsample (separate composite).2)) ∧
      (demodulateWBFMStage2 monoDownsample stereoDownsample separate
          leftDeemph rightDeemph stereoMode composite).right =
        rightDeemph (subInto (monoDownsample composite)
          (stereoDownsample (separate composite).2))) ∧
    (∀ composite : List ℚ,
      (stereoMode = false ∨ (separate composite).1 = false) →
      leftDeemph = rightDeemph →
      (demodulateWBFMStage2 monoDownsample stereoDownsample separate
          leftDeemph rightDeemph stereoMode composite).left =
        (demodulateWBFMStage2 monoDownsample stereoDownsample separate
          leftDeemph rightDeemph stereoMode composite).right ∧
      (demodulateWBFMStage2 monoDownsample stereoDownsample separate
          leftDeemph rightDeemph stereoMode composite).left =
        leftDeemph (monoDownsample composite)) ∧
    (∀ composite : List ℚ,
      (demodulateWBFMStage2 monoDownsample stereoDownsample separate
          leftDeemph rightDeemph stereoMode composite).stereo =
        ((separate composite).1 && stereoMode)) ∧
    ((demodulateWBFM shifterInPlace downsampler filterI filterQ fmDemodulate
        monoDownsample stereoDownsample separate leftDeemph rightDeemph
        interRate stereoMode samplesI samplesQ freqOffset).1.left =
      (demodulateWBFMStage2 monoDownsample stereoDownsample separate
        leftDeemph rightDeemph stereoMode
        (demodulateWBFMStage1 shifterInPlace downsampler filterI filterQ
          fmDemodulate interRate samplesI samplesQ freqOffset).1.left).left ∧
     (demodulateWBFM shifterInPlace downsampler filterI filterQ fmDemodulate
        monoDownsample stereoDownsample separate leftDeemph rightDeemph
        interRate stereoMode samplesI samplesQ freqOffset).1.right =
      (demodulateWBFMStage2 monoDownsample stereoDownsample separate
        leftDeemph rightDeemph stereoMode
        (demodulateWBFMStage1 shifterInPlace downsampler filterI filterQ
          fmDemodulate interRate samplesI samplesQ freqOffset).1.left).right ∧
     (demodulateWBFM shifterInPlace downsampler filterI filterQ fmDemodulate
        monoDownsample stereoDownsample separate leftDeemph rightDeemph
        interRate stereoMode samplesI samplesQ freqOffset).1.stereo =
      (demodulateWBFMStage2 monoDownsample stereoDownsample separate
        leftDeemph rightDeemph stereoMode
        (demodulateWBFMStage1 shifterInPlace downsampler filterI filterQ
          fmDemodulate interRate samplesI samplesQ freqOffset).1.left).stereo ∧
     (demodulateWBFM shifterInPlace downsampler filterI filterQ fmDemodulate
        monoDownsample stereoDownsample separate leftDeemph rightDeemph
        interRate stereoMode samplesI samplesQ freqOffset).1.snr =
      (demodulateWBFMStage1 shifterInPlace downsampler filterI filterQ
        fmDemodulate interRate samplesI samplesQ freqOffset).1.snr) := by
  refine ⟨?_, ?_, ?_, rfl, rfl, rfl, rfl⟩
  · intro composite hreq hfound
    constructor <;> simp [demodulateWBFMStage2, hreq, hfound]
  · intro composite h hLR
    rcases h with h | h
    · constructor <;> simp [demodulateWBFMStage2, h, hLR]
    · constructor <;> cases stereoMode <;>
        simp [demodulateWBFMStage2, h, hLR]
  · intro composite
    cases stereoMode
    · simp [demodulateWBFMStage2]
    · rcases hsep : (separate composite).1 with _ | _ <;>
        simp [demodulateWBFMStage2, hsep]

/-- C2 witness: concrete instantiations exercising the pilot-found branch,
the mono branch and the stereo flag. -/
theorem c2_wbfm_stereo_mixing_witness :
    (demodulateWBFMStage2 id id (fun s => (true, s)) id id true
        [1, 2]).left = [2, 4] ∧
    (demodulateWBFMStage2 id id (fun s => (true, s)) id id true
        [1, 2]).right = [0, 0] ∧
    (demodulateWBFMStage2 id id (fun s => (false, s)) id id true
        [1, 2]).left = [1, 2] := by
  have base := c2_wbfm_stereo_mixing (fun I Q _ => (I, Q)) none id id
    (fun I _ => I) id id (fun s => (true, s)) id id 336000 true [] [] 0
  have mono := c2_wbfm_stereo_mixing (fun I Q _ => (I, Q)) none id id
    (fun I _ => I) id id (fun s => (false, s)) id id 336000 true [] [] 0
  obtain ⟨h1, h2⟩ := base.1 [1, 2] rfl rfl
  obtain ⟨-, h3⟩ := mono.2.1 [1, 2] (Or.inr rfl) rfl
  refine ⟨?_, ?_, ?_⟩
  · rw [h1]; norm_num [addInto]
  · rw [h2]; norm_num [subInto]
  · rw [h3]; simp

/-- C7 counterexample: `setBandwidth` on a WBFM record falls through without
building a record: the store and the reference are returned unchanged, so no
freshly constructed record is installed for this setter and starting
record. -/
theorem c7_wbfm_setbandwidth_counterexample :
    heapSetBandwidth [Mode.wbfm true] 0 5000 = ([Mode.wbfm true], 0) ∧
    (heapSetBandwidth [Mode.wbfm true] 0 5000).1.length = 1 :=
  ⟨rfl, rfl⟩

/-- C7 (amended): mode parameter records are never mutated in place: for each
setter every record that existed before the call holds exactly the same
field values afterwards.  A setter whose parameter applies to the scheme of
the referenced record (bandwidth on every scheme but WBFM, stereo on WBFM
only, squelch on every scheme but WBFM and CW) installs a freshly
constructed record with the updated field; a setter whose parameter does not
apply falls through and leaves the original record installed, allocating
nothing. -/
theorem c7_records_never_mutated (h : List Mode) (i : ℕ) (b q : ℚ)
    (st : Bool) :
    (∀ j, j < h.length →
      (heapSetBandwidth h i b).1[j]? = h[j]? ∧
      (heapSetStereo h i st).1[j]? = h[j]? ∧
      (heapSetSquelch h i q).1[j]? = h[j]?) ∧
    (∀ m : Mode, h[i]? = some m →
      heapSetBandwidth h i b =
        (if m.hasBandwidth then (h ++ [m.setBandwidth b], h.length)
         else (h, i)) ∧
      heapSetStereo h i st =
        (if m.hasStereo then (h ++ [m.setStereo st], h.length)
         else (h, i)) ∧
      heapSetSquelch h i q =
        (if m.hasSquelch then (h ++ [m.setSquelch q], h.length)
         else (h, i))) ∧
    (h[i]? = none →
      heapSetBandwidth h i b = (h, i) ∧
      heapSetStereo h i st = (h, i) ∧
      heapSetSquelch h i q = (h, i)) := by
  refine ⟨?_, ?_, ?_⟩
  · intro j hj
    rcases hm : h[i]? with _ | m
    · simp [heapSetBandwidth, heapSetStereo, heapSetSquelch, hm]
    · cases m <;>
        simp [heapSetBandwidth, heapSetStereo, heapSetSquelch, hm,
          List.getElem?_append_left hj]
  · intro m hm
    cases m <;>
      simp [heapSetBandwidth, heapSetStereo, heapSetSquelch, hm,
        Mode.hasBandwidth, Mode.hasStereo, Mode.hasSquelch, Mode.setStereo]
  · intro hm
    simp [heapSetBandwidth, heapSetStereo, heapSetSquelch, hm]

/-- C7 witness: in a two-record store, setting the bandwidth of the AM record
appends a fresh clamped record referenced at index 2 and leaves the WBFM
record at index 0 untouched; setting the squelch of a CW record installs
nothing. -/
theorem c7_records_never_mutated_witness :
    heapSetBandwidth [Mode.wbfm true, Mode.am 15000 0] 1 40000 =
      ([Mode.wbfm true, Mode.am 15000 0] ++
        [(Mode.am 15000 0).setBandwidth 40000], 2) ∧
    (heapSetBandwidth [Mode.wbfm true, Mode.am 15000 0] 1 40000).1[0]? =
      [Mode.wbfm true, Mode.am 15000 0][0]? ∧
    heapSetSquelch [Mode.cw 50] 0 3 = ([Mode.cw 50], 0) := by
  refine ⟨?_, ?_, ?_⟩
  · have h1 := ((c7_records_never_mutated [Mode.wbfm true, Mode.am 15000 0] 1
      40000 3 false).2.1 (Mode.am 15000 0) rfl).1
    simpa [Mode.hasBandwidth] using h1
  · exact ((c7_records_never_mutated [Mode.wbfm true, Mode.am 15000 0] 1 40000
      3 false).1 0 (by norm_num)).1
  · have h2 := ((c7_records_never_mutated [Mode.cw 50] 0 40000 3 false).2.1
      (Mode.cw 50) rfl).2.2
    simpa [Mode.hasSquelch] using h2

/-- Invariant run of the sample counter: starting below the click interval,
with every block no longer than the interval, the number of dispatched
events is the integer quotient of the accumulated samples by the interval
and the final count is the remainder. -/
theorem runCounter_events (k : ℤ) (hk : 0 < k) :
    ∀ (ls : List ℕ) (s : SampleCounterState),
      s.samplesPerClick = some k →
      0 ≤ s.countedSamples → s.countedSamples < k →
      (∀ n ∈ ls, (n : ℤ) ≤ k) →
      ((runCounter s ls).2 : ℤ) =
          (s.countedSamples + totalSamples ls) / k ∧
        (runCounter s ls).1.countedSamples =
          (s.countedSamples + totalSamples ls) % k := by
  intro ls
  induction ls with
  | nil =>
    intro s hs h0 hlt _
    refine ⟨?_, ?_⟩
    · simpa [runCounter, totalSamples] using
        (Int.ediv_eq_zero_of_lt h0 hlt).symm
    · simpa [runCounter, totalSamples] using
        (Int.emod_eq_of_lt h0 hlt).symm
  | cons n rest ih =>
    intro s hs h0 hlt hb
    have hn : (n : ℤ) ≤ k := hb n (List.mem_cons_self n rest)
    have hrest : ∀ m ∈ rest, (m : ℤ) ≤ k :=
      fun m hm => hb m (List.mem_cons_of_mem n hm)
    have htot : totalSamples (n :: rest) = (n : ℤ) + totalSamples rest := by
      simp [totalSamples]
    by_cases hck : s.countedSamples + (n : ℤ) < k
    · have hstep : s.receiveSamples n =
          ({ s with countedSamples := s.countedSamples + (n : ℤ) }, false) := by
        simp [SampleCounterState.receiveSamples, hs, hck]
      obtain ⟨ih1, ih2⟩ :=
        ih { s with countedSamples := s.countedSamples + (n : ℤ) }
          (by simp [hs]) (add_nonneg h0 (Int.natCast_nonneg n)) hck hrest
      have e1 : ((runCounter s (n :: rest)).2 : ℤ) =
          ((runCounter { s with countedSamples := s.countedSamples + (n : ℤ) }
            rest).2 : ℤ) := by
        rw [runCounter, hstep]
        simp
      have e2 : (runCounter s (n :: rest)).1.countedSamples =
          (runCounter { s with countedSamples := s.countedSamples + (n : ℤ) }
            rest).1.countedSamples := by
        rw [runCounter, hstep]
      have ih1h : ((runCounter
          { s with countedSamples := s.countedSamples + (n : ℤ) } rest).2 : ℤ) =
          (s.countedSamples + (n : ℤ) + totalSamples rest) / k := by
        simpa using ih1
      have ih2h : (runCounter
          { s with countedSamples := s.countedSamples + (n : ℤ) }
            rest).1.countedSamples =
          (s.countedSamples + (n : ℤ) + totalSamples rest) % k := by
        simpa using ih2
      constructor
      · rw [e1, ih1h, htot]
        congr 1
        omega
      · rw [e2, ih2h, htot]
        congr 1
        omega
    · push_neg at hck
      have hstep : s.receiveSamples n =
          ({ s with countedSamples := (s.countedSamples + (n : ℤ)) % k },
           true) := by
        simp [SampleCounterState.receiveSamples, hs, not_lt.mpr hck]
      have hmod0 : (0 : ℤ) ≤ (s.countedSamples + (n : ℤ)) % k :=
        Int.emod_nonneg _ (ne_of_gt hk)
      have hmodlt : (s.countedSamples + (n : ℤ)) % k < k :=
        Int.emod_lt_of_pos _ hk
      have hceq : (s.countedSamples + (n : ℤ)) % k =
          s.countedSamples + (n : ℤ) - k := by
        have h1 : (s.countedSamples + (n : ℤ) - k) % k =
            (s.countedSamples + (n : ℤ)) % k := by
          rw [show s.countedSamples + (n : ℤ) - k =
            s.countedSamples + (n : ℤ) + (-1) * k by ring,
            Int.add_mul_emod_self]
        rw [← h1]
        exact Int.emod_eq_of_lt (by linarith) (by linarith)
      obtain ⟨ih1, ih2⟩ := ih
        { s with countedSamples := (s.countedSamples + (n : ℤ)) % k }
        (by simp [hs]) hmod0 hmodlt hrest
      have e1 : ((runCounter s (n :: rest)).2 : ℤ) =
          1 + ((runCounter
            { s with countedSamples := (s.countedSamples + (n : ℤ)) % k }
            rest).2 : ℤ) := by
        rw [runCounter, hstep]
        simp
      have e2 : (runCounter s (n :: rest)).1.countedSamples =
          (runCounter
            { s with countedSamples := (s.countedSamples + (n : ℤ)) % k }
            rest).1.countedSamples := by
        rw [runCounter, hstep]
      have ih1h : ((runCounter
          { s with countedSamples := (s.countedSamples + (n : ℤ)) % k }
            rest).2 : ℤ) =
          ((s.countedSamples + (n : ℤ)) % k + totalSamples rest) / k := by
        simpa using ih1
      have ih2h : (runCounter
          { s with countedSamples := (s.countedSamples + (n : ℤ)) % k }
            rest).1.countedSamples =
          ((s.countedSamples + (n : ℤ)) % k + totalSamples rest) % k := by
        simpa using ih2
      constructor
      · rw [e1, ih1h, hceq, htot]
        rw [show s.countedSamples + ((n : ℤ) + totalSamples rest) =
          (s.countedSamples + (n : ℤ) - k + totalSamples rest) + 1 * k by ring,
          Int.add_mul_ediv_right _ _ (ne_of_gt hk)]
        ring
      · rw [e2, ih2h, hceq, htot]
        rw [show s.countedSamples + (n : ℤ) - k + totalSamples rest =
          (s.countedSamples + ((n : ℤ) + totalSamples rest)) + (-1) * k by
            ring,
          Int.add_mul_emod_self]

/-- C8 counterexample: with the default 1024000 sample rate and 1024 clicks
per second the interval is 1000 samples; a single block of 2000 samples
makes the accumulated count reach two multiples of the interval, yet exactly
one sample-click event is dispatched. -/
theorem c8_single_event_counterexample :
    (runCounter (mkSampleCounter (some 1024)) [2000]).2 = 1 ∧
    totalSamples [2000] / ⌊(1024000 : ℚ) / 1024⌋ = 2 := by
  have hfl : ⌊(1024000 : ℚ) / 1024⌋ = 1000 := by norm_num
  constructor
  · have hk : getSamplesPerClick 1024000 (some 1024) = some 1000 := by
      simp [getSamplesPerClick, hfl]
    simp [runCounter, mkSampleCounter, SampleCounterState.receiveSamples, hk]
  · rw [hfl]
    norm_num [totalSamples]

/-- C8 (amended): when the counter is configured with a ticks-per-second
value, at most one event is dispatched per received block; when every block
is no longer than the interval (the floor of sampleRate over
ticksPerSecond), the number of dispatched events over any block sequence is
exactly the integer quotient of the total accumulated samples by the
interval, and the retained count is the remainder. -/
theorem c8_tick_count (clicksPerSecond rate : ℚ) (ls : List ℕ)
    (hk : 0 < ⌊rate / clicksPerSecond⌋)
    (hb : ∀ n ∈ ls, (n : ℤ) ≤ ⌊rate / clicksPerSecond⌋) :
    ((runCounter ((mkSampleCounter (some clicksPerSecond)).setSampleRate
        rate) ls).2 : ℤ) =
      totalSamples ls / ⌊rate / clicksPerSecond⌋ ∧
    (runCounter ((mkSampleCounter (some clicksPerSecond)).setSampleRate
        rate) ls).1.countedSamples =
      totalSamples ls % ⌊rate / clicksPerSecond⌋ := by
  have h := runCounter_events ⌊rate / clicksPerSecond⌋ hk ls
    ((mkSampleCounter (some clicksPerSecond)).setSampleRate rate)
    (by simp [mkSampleCounter, SampleCounterState.setSampleRate,
      getSamplesPerClick])
    (by simp [mkSampleCounter, SampleCounterState.setSampleRate]) hk hb
  simpa [mkSampleCounter, SampleCounterState.setSampleRate] using h

/-- C8 witness: interval 1000; blocks of 500 and 600 samples accumulate 1100
samples and dispatch exactly one event, retaining a count of 100. -/
theorem c8_tick_count_witness :
    ((runCounter ((mkSampleCounter (some 1024)).setSampleRate 1024000)
        [500, 600]).2 : ℤ) =
      totalSamples [500, 600] / ⌊(1024000 : ℚ) / 1024⌋ ∧
    (runCounter ((mkSampleCounter (some 1024)).setSampleRate 1024000)
        [500, 600]).1.countedSamples =
      totalSamples [500, 600] % ⌊(1024000 : ℚ) / 1024⌋ := by
  exact c8_tick_count 1024 1024000 [500, 600] (by norm_num)
    (by intro n hn; fin_cases hn <;> norm_num)

end WebRtlSdr
